import Mathlib

/-!
Verification of the PN532 driver's frame codec, transaction engine and
transports, as a shallow embedding of the Rust sources.

Bytes are modelled as `Nat` with explicit `% 256` at every point where the
source performs `u8` wrapping arithmetic or an `as u8` cast.  The driver's
frame buffer is a `List Nat` of length `N`.  Operations that can panic in
the source (out-of-bounds indexing and slicing) return `Option`, with `none`
standing for the panic.
-/

/-- src/protocol.rs: `PREAMBLE`. -/
def PREAMBLE : List Nat := [0x00, 0x00, 0xFF]

/-- src/protocol.rs: `POSTAMBLE`. -/
def POSTAMBLE : Nat := 0x00

/-- src/protocol.rs: `ACK` frame literal. -/
def ACK : List Nat := [0x00, 0x00, 0xFF, 0x00, 0xFF, 0x00]

/-- src/protocol.rs: `HOST_TO_PN532`. -/
def HOST_TO_PN532 : Nat := 0xD4

/-- src/protocol.rs: `PN532_TO_HOST`. -/
def PN532_TO_HOST : Nat := 0xD5

/-- u8 wrapping addition: `a.wrapping_add(b)`. -/
def wadd (a b : Nat) : Nat := (a + b) % 256

/-- src/protocol.rs `_send`: `to_checksum(sum) = (!sum).wrapping_add(1)`,
the two's complement of a byte. -/
def to_checksum (s : Nat) : Nat := (256 - s % 256) % 256

/-- src/protocol.rs `_send`: running byte sum
`HOST_TO_PN532.wrapping_add(command)` then folding `wrapping_add` over the
payload bytes. -/
def data_sum (cmd : Nat) (data : List Nat) : Nat :=
  data.foldl wadd (wadd HOST_TO_PN532 cmd)

/-- `buf[i] = v` on a slice: in-bounds update, `none` models the Rust panic. -/
def setByte (l : List Nat) (i v : Nat) : Option (List Nat) :=
  if i < l.length then some (l.set i v) else none

/-- `buf[i..i+d.len()].copy_from_slice(d)`: `none` models the Rust panic on
an out-of-range slice. -/
def setSlice (l : List Nat) (i : Nat) (d : List Nat) : Option (List Nat) :=
  if i + d.length ≤ l.length then
    some (l.take i ++ d ++ l.drop (i + d.length))
  else none

/-- The wire frame assembled by `_send` for command byte `cmd` and payload
`data`: preamble, LEN `= 2 + D` as u8, LCS, direction byte `D4`, command,
payload, DCS, postamble.  This is the net content of buffer cells
`[0, 9 + D)` after `_send`. -/
def buildFrame (cmd : Nat) (data : List Nat) : List Nat :=
  let frame_len := (2 + data.length) % 256
  [0x00, 0x00, 0xFF, frame_len, to_checksum frame_len, HOST_TO_PN532, cmd % 256]
    ++ data ++ [to_checksum (data_sum cmd data), POSTAMBLE]

/-- src/protocol.rs `Pn532::_send`, store by store.  Returns the updated
buffer together with the bytes `&buf[..9 + data_len]` passed to the
transport's `write`; `none` is the panic on a too-small buffer. -/
def sendFrame (buf : List Nat) (cmd : Nat) (data : List Nat) :
    Option (List Nat × List Nat) :=
  (setByte buf 0 0x00).bind fun b =>
  (setByte b 1 0x00).bind fun b =>
  (setByte b 2 0xFF).bind fun b =>
  (setByte b 3 ((2 + data.length) % 256)).bind fun b =>
  (setByte b 4 (to_checksum ((2 + data.length) % 256))).bind fun b =>
  (setByte b 5 HOST_TO_PN532).bind fun b =>
  (setByte b 6 (cmd % 256)).bind fun b =>
  (setSlice b 7 data).bind fun b =>
  (setByte b (7 + data.length) (to_checksum (data_sum cmd data))).bind fun b =>
  (setByte b (8 + data.length) POSTAMBLE).bind fun b =>
  some (b, b.take (9 + data.length))

/-- Error type of the driver, src/protocol.rs `Error` (the interface error
is abstracted to a numeric code). -/
inductive PErr
  | badAck
  | badResponseFrame
  | syntaxErr
  | crcError
  | bufTooSmall
  | timeoutAck
  | timeoutResponse
  | interfaceError (e : Nat)
deriving DecidableEq

/-- Outcome of a fallible driver call: `Result` of src/protocol.rs. -/
inductive PResult
  | ok (payload : List Nat)
  | err (e : PErr)
deriving DecidableEq

/-- The byte-sum fold of `parse_response`:
`fold(0u8, wrapping_add)` over a slice. -/
def csum (l : List Nat) : Nat := l.foldl wadd 0

/-- src/protocol.rs `parse_response`, check by check.  Out-of-bounds
indexing or slicing (a Rust panic) is `none`; the checked postamble lookup
`response_buf.get(5 + frame_len + 1)` is the `match` on `buf[...]?`. -/
def parse_response (buf : List Nat) (expected : Nat) : Option PResult :=
  match buf[0]?, buf[1]?, buf[2]? with
  | some b0, some b1, some b2 =>
    if b0 ≠ 0x00 ∨ b1 ≠ 0x00 ∨ b2 ≠ 0xFF then some (.err .badResponseFrame)
    else
      match buf[3]?, buf[4]? with
      | some frame_len, some lcs =>
        if (frame_len + lcs) % 256 ≠ 0 then some (.err .crcError)
        else if frame_len = 0 then some (.err .badResponseFrame)
        else if frame_len = 1 then some (.err .syntaxErr)
        else
          match buf[5 + frame_len + 1]? with
          | none => some (.err .bufTooSmall)
          | some p =>
            if p ≠ POSTAMBLE then some (.err .badResponseFrame)
            else
              match buf[5]?, buf[6]? with
              | some b5, some b6 =>
                if b5 ≠ PN532_TO_HOST ∨ b6 ≠ expected then
                  some (.err .badResponseFrame)
                else if 5 + frame_len + 1 ≤ buf.length then
                  if csum ((buf.drop 5).take (frame_len + 1)) ≠ 0 then
                    some (.err .crcError)
                  else if 7 ≤ 5 + frame_len ∧ 5 + frame_len ≤ buf.length then
                    some (.ok ((buf.drop 7).take (5 + frame_len - 7)))
                  else none
                else none
              | _, _ => none
      | _, _ => none
  | _, _, _ => none

/-- Modelled from the spec: the parse-response decision list of section 4.1,
applied in order with the first failing check deciding the error.  Bytes are
looked up with a zero default; on the buffer shapes the spec quantifies over
every lookup this definition performs is in range. -/
def parseSpec (buf : List Nat) (expected : Nat) : PResult :=
  let byte := fun i => (buf[i]?).getD 0
  if byte 0 ≠ 0x00 ∨ byte 1 ≠ 0x00 ∨ byte 2 ≠ 0xFF then .err .badResponseFrame
  else if (byte 3 + byte 4) % 256 ≠ 0 then .err .crcError
  else if byte 3 = 0 then .err .badResponseFrame
  else if byte 3 = 1 then .err .syntaxErr
  else if buf.length ≤ 6 + byte 3 then .err .bufTooSmall
  else if byte (6 + byte 3) ≠ 0x00 then .err .badResponseFrame
  else if byte 5 ≠ 0xD5 ∨ byte 6 ≠ expected then .err .badResponseFrame
  else if csum ((buf.drop 5).take (byte 3 + 1)) ≠ 0 then .err .crcError
  else .ok ((buf.drop 7).take (5 + byte 3 - 7))

/-- src/requests.rs: the `Command` enumeration. -/
inductive Command
  | diagnose
  | getFirmwareVersion
  | getGeneralStatus
  | readRegister
  | writeRegister
  | readGpio
  | writeGpio
  | setSerialBaudRate
  | setParameters
  | samConfiguration
  | powerDown
  | rfConfiguration
  | rfRegulationTest
  | inJumpForDEP
  | inJumpForPSL
  | inListPassiveTarget
  | inATR
  | inPSL
  | inDataExchange
  | inCommunicateThru
  | inDeselect
  | inRelease
  | inSelect
  | inAutoPoll
  | tgInitAsTarget
  | tgSetGeneralBytes
  | tgGetData
  | tgSetData
  | tgSetMetaData
  | tgGetInitiatorCommand
  | tgResponseToInitiator
  | tgGetTargetStatus
deriving DecidableEq

/-- The `repr(u8)` discriminants of `Command`. -/
def Command.toByte : Command → Nat
  | .diagnose => 0x00
  | .getFirmwareVersion => 0x02
  | .getGeneralStatus => 0x04
  | .readRegister => 0x06
  | .writeRegister => 0x08
  | .readGpio => 0x0C
  | .writeGpio => 0x0E
  | .setSerialBaudRate => 0x10
  | .setParameters => 0x12
  | .samConfiguration => 0x14
  | .powerDown => 0x16
  | .rfConfiguration => 0x32
  | .rfRegulationTest => 0x58
  | .inJumpForDEP => 0x56
  | .inJumpForPSL => 0x46
  | .inListPassiveTarget => 0x4A
  | .inATR => 0x50
  | .inPSL => 0x4E
  | .inDataExchange => 0x40
  | .inCommunicateThru => 0x42
  | .inDeselect => 0x44
  | .inRelease => 0x52
  | .inSelect => 0x54
  | .inAutoPoll => 0x60
  | .tgInitAsTarget => 0x8C
  | .tgSetGeneralBytes => 0x92
  | .tgGetData => 0x86
  | .tgSetData => 0x8E
  | .tgSetMetaData => 0x94
  | .tgGetInitiatorCommand => 0x88
  | .tgResponseToInitiator => 0x90
  | .tgGetTargetStatus => 0x8A

/-- src/requests.rs: a `Request` is a command plus payload bytes. -/
structure Request where
  command : Command
  data : List Nat
deriving DecidableEq

/-- src/requests.rs: `Request::GET_FIRMWARE_VERSION`. -/
def Request.GET_FIRMWARE_VERSION : Request :=
  ⟨Command.getFirmwareVersion, []⟩

/-- src/requests.rs: the `SAMMode` parameter. -/
inductive SAMMode
  | normal
  | virtualCard (timeout : Nat)
  | wiredCard
  | dualCard
deriving DecidableEq

/-- src/requests.rs: `Request::sam_configuration(mode, use_irq_pin)`. -/
def Request.sam_configuration (mode : SAMMode) (use_irq_pin : Bool) : Request :=
  let mt : Nat × Nat :=
    match mode with
    | .normal => (1, 0)
    | .virtualCard timeout => (2, timeout)
    | .wiredCard => (3, 0)
    | .dualCard => (4, 0)
  ⟨Command.samConfiguration, [mt.1, mt.2, if use_irq_pin then 1 else 0]⟩

/-- src/protocol.rs `Pn532::receive_response` on a driver whose buffer has
length `N`: take the slice `buf[..response_len + 9]` (panicking — `none` —
when the buffer is too small), zero it, fill it with the bytes arriving
from the transport, and parse it against `sent_command as u8 + 1`.  If the
model is given fewer incoming bytes than the slice, the remainder keeps the
zero fill. -/
def receive_response (N sent_command response_len : Nat) (incoming : List Nat) :
    Option PResult :=
  if response_len + 9 ≤ N then
    parse_response
      (incoming.take (response_len + 9)
        ++ List.replicate (response_len + 9 - incoming.length) 0)
      ((sent_command % 256 + 1) % 256)
  else none

/-- embedded-hal: the source of an I2C no-acknowledge error. -/
inductive NoAcknowledgeSource
  | address
  | data
  | unknown
deriving DecidableEq

/-- embedded-hal: `ErrorKind` classification of an I2C failure. -/
inductive I2cErrorKind
  | bus
  | arbitrationLoss
  | noAcknowledge (source : NoAcknowledgeSource)
  | overrun
  | other
deriving DecidableEq

/-- Outcome of the single-byte `i2c.read` performed by the I2C
`wait_ready`. -/
inductive I2cRead
  | ok (byte : Nat)
  | err (e : I2cErrorKind)
deriving DecidableEq

/-- A `Poll<Result<(), E>>` value, flattened. -/
inductive I2cPoll
  | pending
  | readyOk
  | readyErr (e : I2cErrorKind)
deriving DecidableEq

/-- src/i2c.rs: `PN532_I2C_READY`. -/
def PN532_I2C_READY : Nat := 0x01

/-- src/i2c.rs: `I2C_ADDRESS`, the fixed slave address of the device. -/
def I2C_ADDRESS : Nat := 0x24

/-- src/i2c.rs `I2CInterface::wait_ready` (blocking): a one-byte read from
`I2C_ADDRESS`; a read error whose kind is NoAcknowledge(Address) or
NoAcknowledge(Unknown) is treated as pending, any other error is returned
ready; a successfully read byte is ready iff it equals `PN532_I2C_READY`. -/
def I2CInterface.wait_ready (r : I2cRead) : I2cPoll :=
  match r with
  | .err e =>
    match e with
    | .noAcknowledge .address => .pending
    | .noAcknowledge .unknown => .pending
    | _ => .readyErr e
  | .ok b => if b = PN532_I2C_READY then .readyOk else .pending

/-- Modelled from the spec (amended): ready(Ok) iff the byte read is 0x01;
a byte other than 0x01 is pending; a no-acknowledge whose source is the
address phase or unknown is pending; a no-acknowledge on the data phase,
like every other bus error, surfaces as ready(Err). -/
def i2cWaitReadySpec (r : I2cRead) : I2cPoll :=
  match r with
  | .ok b => if b = 0x01 then .readyOk else .pending
  | .err (.noAcknowledge .address) => .pending
  | .err (.noAcknowledge .unknown) => .pending
  | .err e => .readyErr e

/-- One scripted answer of the transport's `wait_ready` in the blocking
engine. -/
inductive PollR
  | pending
  | readyOk
  | readyErr (e : Nat)
deriving DecidableEq

/-- A transport operation observed on the wire. -/
inductive Op
  | write (bytes : List Nat)
  | read (len : Nat)
deriving DecidableEq

/-- Result of one busy-wait loop of `_process`. -/
inductive WaitOut
  | ok
  | err (e : Nat)
  | timeout
deriving DecidableEq

/-- Outcome of a `_process` run: a returned value, a panic, or a script
that ran dry. -/
inductive POut
  | panicked
  | stuck
  | res (r : PResult)
deriving DecidableEq

/-- The busy-wait loop
`while interface.wait_ready()?.is_pending() { if timer.wait().is_ok() { return Err(timeout) } }`
of `_process`: each iteration consumes one scripted `wait_ready` answer
and, when that answer is pending, one scripted timer answer (`true` means
the countdown has elapsed).  `none` when the script runs dry. -/
def runWait : List PollR → List Bool → Option (WaitOut × List PollR × List Bool)
  | [], _ => none
  | .readyOk :: ps, ts => some (.ok, ps, ts)
  | .readyErr e :: ps, ts => some (.err e, ps, ts)
  | .pending :: _, [] => none
  | .pending :: ps, t :: ts =>
    if t then some (.timeout, ps, ts) else runWait ps ts

/-- src/protocol.rs `Pn532::_process` run against a scripted environment:
build and write the frame, busy-wait for readiness (TimeoutAck on expiry),
read and check the 6-byte ACK, busy-wait again (TimeoutResponse on
expiry), then `receive_response`.  The second component is the trace of
transport writes and reads in order; a panic (`POut.panicked`) carries the
trace of the I/O that happened before it.  The bound check of
`receive_response` is replayed here because its panic fires before the
response read. -/
def runProcess (buf : List Nat) (cmd : Nat) (data : List Nat)
    (response_len : Nat) (polls : List PollR) (timer : List Bool)
    (ackBytes respBytes : List Nat) : POut × List Op :=
  match sendFrame buf cmd data with
  | none => (.panicked, [])
  | some (buf2, w) =>
    match runWait polls timer with
    | none => (.stuck, [Op.write w])
    | some (.err e, _, _) => (.res (.err (.interfaceError e)), [Op.write w])
    | some (.timeout, _, _) => (.res (.err .timeoutAck), [Op.write w])
    | some (.ok, polls2, timer2) =>
      let ackBuf := ackBytes.take 6 ++ List.replicate (6 - ackBytes.length) 0
      if ackBuf ≠ ACK then (.res (.err .badAck), [Op.write w, Op.read 6])
      else
        match runWait polls2 timer2 with
        | none => (.stuck, [Op.write w, Op.read 6])
        | some (.err e, _, _) =>
          (.res (.err (.interfaceError e)), [Op.write w, Op.read 6])
        | some (.timeout, _, _) =>
          (.res (.err .timeoutResponse), [Op.write w, Op.read 6])
        | some (.ok, _, _) =>
          if response_len + 9 ≤ buf2.length then
            match receive_response buf2.length cmd response_len respBytes with
            | none =>
              (.panicked, [Op.write w, Op.read 6, Op.read (response_len + 9)])
            | some r =>
              (.res r, [Op.write w, Op.read 6, Op.read (response_len + 9)])
          else (.panicked, [Op.write w, Op.read 6])

/-- Seven consecutive in-place stores at indices 0..6 replace the first seven
cells and keep the rest. -/
lemma set_seven (l : List Nat) (h : 7 ≤ l.length) (a b c d e f g : Nat) :
    ((((((l.set 0 a).set 1 b).set 2 c).set 3 d).set 4 e).set 5 f).set 6 g
      = [a, b, c, d, e, f, g] ++ l.drop 7 := by
  rcases l with _ | ⟨x0, _ | ⟨x1, _ | ⟨x2, _ | ⟨x3, _ | ⟨x4, _ | ⟨x5, _ | ⟨x6, t⟩⟩⟩⟩⟩⟩⟩ <;>
    simp_all [List.set]

/-- A list whose length is at least two is a double cons. -/
lemma exists_cons_cons (l : List Nat) (h : 2 ≤ l.length) :
    ∃ y z t, l = y :: z :: t := by
  rcases l with _ | ⟨y, _ | ⟨z, t⟩⟩ <;> simp_all

/-- Writing a slice right after a prefix `A` replaces the next `d.length`
cells and keeps both `A` and the tail. -/
lemma setSlice_after (A r d : List Nat) (hd : d.length ≤ r.length) :
    setSlice (A ++ r) A.length d = some (A ++ d ++ r.drop d.length) := by
  rw [setSlice, if_pos (by simp only [List.length_append]; omega)]
  rw [List.take_left, List.drop_append]

/-- An in-bounds store succeeds. -/
lemma setByte_pos (l : List Nat) (i v : Nat) (hi : i < l.length) :
    setByte l i v = some (l.set i v) := by
  rw [setByte, if_pos hi]

/-- A single store right after a prefix `A` updates the tail only. -/
lemma setByte_after (A r : List Nat) (i v : Nat) (hi : i < r.length) :
    setByte (A ++ r) (A.length + i) v = some (A ++ r.set i v) := by
  rw [setByte, if_pos (by simp only [List.length_append]; omega)]
  rw [List.set_append, if_neg (by omega), Nat.add_sub_cancel_left]

/-- Characterization of `_send` on a large-enough buffer: the first
`9 + D` cells become exactly the frame, the rest of the buffer is
untouched, and precisely the frame bytes are handed to the transport. -/
lemma sendFrame_eq (buf : List Nat) (cmd : Nat) (data : List Nat)
    (h : 9 + data.length ≤ buf.length) :
    sendFrame buf cmd data =
      some (buildFrame cmd data ++ buf.drop (9 + data.length),
            buildFrame cmd data) := by
  have h0 : 0 < buf.length := by omega
  have h1 : 1 < buf.length := by omega
  have h2 : 2 < buf.length := by omega
  have h3 : 3 < buf.length := by omega
  have h4 : 4 < buf.length := by omega
  have h5 : 5 < buf.length := by omega
  have h6 : 6 < buf.length := by omega
  have h7 : 7 ≤ buf.length := by omega
  rw [sendFrame]
  set fl := (2 + data.length) % 256 with hfl
  set dcs := to_checksum (data_sum cmd data) with hdcs
  set A : List Nat := [0x00, 0x00, 0xFF, fl, to_checksum fl, HOST_TO_PN532, cmd % 256]
    with hA
  have hA7 : A.length = 7 := by rw [hA]; rfl
  have e7 : ((((((buf.set 0 0x00).set 1 0x00).set 2 0xFF).set 3 fl).set 4
      (to_checksum fl)).set 5 HOST_TO_PN532).set 6 (cmd % 256)
      = A ++ buf.drop 7 := set_seven buf h7 _ _ _ _ _ _ _
  have hdl : data.length ≤ (buf.drop 7).length := by simp; omega
  have esl : setSlice (A ++ buf.drop 7) 7 data
      = some (A ++ data ++ buf.drop (7 + data.length)) := by
    have hsl := setSlice_after A (buf.drop 7) data hdl
    rw [hA7, List.drop_drop] at hsl
    rw [hsl]
  obtain ⟨y, z, t, hyz⟩ := exists_cons_cons (buf.drop (7 + data.length)) (by simp; omega)
  have ht : t = buf.drop (9 + data.length) := by
    have hd2 : (buf.drop (7 + data.length)).drop 2 = buf.drop (9 + data.length) := by
      rw [List.drop_drop]; congr 1; omega
    rw [hyz] at hd2
    simpa using hd2
  have hlen : (A ++ data).length = 7 + data.length := by simp [hA7]
  have e8 : setByte (A ++ data ++ buf.drop (7 + data.length)) (7 + data.length) dcs
      = some (A ++ data ++ (dcs :: z :: t)) := by
    have h8 := setByte_after (A ++ data) (buf.drop (7 + data.length)) 0 dcs
      (by rw [hyz]; simp)
    rw [hlen, Nat.add_zero, hyz] at h8
    rw [hyz, h8]
    simp [List.set]
  have e9 : setByte (A ++ data ++ (dcs :: z :: t)) (8 + data.length) POSTAMBLE
      = some (A ++ data ++ (dcs :: POSTAMBLE :: t)) := by
    have h9 := setByte_after (A ++ data) (dcs :: z :: t) 1 POSTAMBLE (by simp)
    rw [hlen] at h9
    rw [show 8 + data.length = 7 + data.length + 1 by omega, h9]
    simp [List.set]
  have etake : (A ++ data ++ (dcs :: POSTAMBLE :: t)).take (9 + data.length)
      = A ++ data ++ [dcs, POSTAMBLE] := by
    rw [show 9 + data.length = (A ++ data).length + 2 by omega, List.take_append]
    rfl
  rw [setByte_pos _ _ _ h0]
  simp only [Option.some_bind]
  rw [setByte_pos _ _ _ (by simp only [List.length_set]; omega)]
  simp only [Option.some_bind]
  rw [setByte_pos _ _ _ (by simp only [List.length_set]; omega)]
  simp only [Option.some_bind]
  rw [setByte_pos _ _ _ (by simp only [List.length_set]; omega)]
  simp only [Option.some_bind]
  rw [setByte_pos _ _ _ (by simp only [List.length_set]; omega)]
  simp only [Option.some_bind]
  rw [setByte_pos _ _ _ (by simp only [List.length_set]; omega)]
  simp only [Option.some_bind]
  rw [setByte_pos _ _ _ (by simp only [List.length_set]; omega)]
  simp only [Option.some_bind]
  rw [e7, esl]
  simp only [Option.some_bind]
  rw [e8]
  simp only [Option.some_bind]
  rw [e9]
  simp only [Option.some_bind]
  rw [etake, ht]
  simp [buildFrame, hA, List.append_assoc]

/-- Folding the wrapping byte addition equals the plain sum reduced mod 256,
for a reduced accumulator. -/
lemma foldl_wadd (l : List Nat) (init : Nat) (h : init < 256) :
    l.foldl wadd init = (init + l.sum) % 256 := by
  induction l generalizing init with
  | nil => simpa using (Nat.mod_eq_of_lt h).symm
  | cons a t ih =>
    rw [List.foldl_cons, ih (wadd init a) (by unfold wadd; omega), List.sum_cons]
    unfold wadd
    omega

/-- The running sum of `_send` is the plain byte sum mod 256. -/
lemma data_sum_eq (cmd : Nat) (data : List Nat) :
    data_sum cmd data = (0xD4 + cmd + data.sum) % 256 := by
  rw [data_sum, foldl_wadd _ _ (by unfold wadd; omega)]
  unfold wadd HOST_TO_PN532
  omega

/-- A byte plus its two's complement vanishes mod 256. -/
lemma add_to_checksum (x : Nat) : (x + to_checksum x) % 256 = 0 := by
  unfold to_checksum
  omega

/-- On any buffer of at least seven bytes the source parser agrees with the
spec's decision list, and in particular never hits an unchecked
out-of-bounds access. -/
lemma parse_response_eq (buf : List Nat) (expected : Nat) (h : 7 ≤ buf.length) :
    parse_response buf expected = some (parseSpec buf expected) := by
  obtain ⟨x0, x1, x2, x3, x4, x5, x6, r, rfl⟩ :
      ∃ a b c d e f g t, buf = a :: b :: c :: d :: e :: f :: g :: t := by
    rcases buf with _ | ⟨a, _ | ⟨b, _ | ⟨c, _ | ⟨d, _ | ⟨e, _ | ⟨f, _ | ⟨g, t⟩⟩⟩⟩⟩⟩⟩ <;>
      simp_all
  simp only [parse_response, parseSpec, List.getElem?_cons_zero,
    List.getElem?_cons_succ, Option.getD_some]
  by_cases c1 : x0 ≠ 0 ∨ x1 ≠ 0 ∨ x2 ≠ 255
  · simp [c1]
  by_cases c2 : (x3 + x4) % 256 ≠ 0
  · simp [c1, c2]
  by_cases c3 : x3 = 0
  · simp [c1, c2, c3, apply_ite]
  by_cases c4 : x3 = 1
  · simp [c1, c2, c3, c4, apply_ite]
  rcases hp : (x1 :: x2 :: x3 :: x4 :: x5 :: x6 :: r)[5 + x3]? with _ | p
  · have hlen : (x1 :: x2 :: x3 :: x4 :: x5 :: x6 :: r).length ≤ 5 + x3 :=
      List.getElem?_eq_none_iff.mp hp
    simp only [List.length_cons] at hlen
    simp [c1, c2, c3, c4, hp]
    split
    · rfl
    · exfalso; omega
  · have hlt : 5 + x3 < (x1 :: x2 :: x3 :: x4 :: x5 :: x6 :: r).length := by
      by_contra hcon
      rw [List.getElem?_eq_none_iff.mpr (by omega)] at hp
      exact Option.noConfusion hp
    simp only [List.length_cons] at hlt
    have h6 : (6 : Nat) + x3 = (5 + x3) + 1 := by omega
    have hbyte : ((x0 :: x1 :: x2 :: x3 :: x4 :: x5 :: x6 :: r)[6 + x3]?).getD 0 = p := by
      rw [h6, List.getElem?_cons_succ, hp]
      rfl
    simp only [hp, hbyte, POSTAMBLE, PN532_TO_HOST, List.length_cons]
    split_ifs <;>
      first
        | rfl
        | (exfalso; omega)

/-- The wrapping fold of `parse_response`'s checksum equals the byte sum
mod 256. -/
lemma csum_eq (l : List Nat) : csum l = l.sum % 256 := by
  rw [csum, foldl_wadd _ _ (by omega)]
  omega

/-- Setting inside the left part of an append. -/
lemma set_append_left (l1 l2 : List Nat) (i v : Nat) (h : i < l1.length) :
    (l1 ++ l2).set i v = l1.set i v ++ l2 := by
  rw [List.set_append, if_pos h]

/-- Setting inside the right part of an append. -/
lemma set_append_right_of_le (l1 l2 : List Nat) (i v : Nat) (h : l1.length ≤ i) :
    (l1 ++ l2).set i v = l1 ++ l2.set (i - l1.length) v := by
  rw [List.set_append, if_neg (by omega)]

/-- C1: for every command byte `c` and payload of length `D` with
`D ≤ N − 9`, `_send` writes into the driver's buffer exactly the frame —
preamble `00 00 FF`, LEN `= D + 2` reduced to a byte, LCS the two's
complement of LEN (so LEN + LCS ≡ 0 mod 256), direction `D4`, `c`, the
payload, DCS the two's complement of `D4 + c + Σ payload` mod 256 (so
direction + command + payload + DCS ≡ 0 mod 256) and postamble `00` —
leaves the rest of the buffer untouched, and passes exactly the first
`9 + D` buffer bytes to the transport's write. -/
theorem C1_send_builds_frame (buf : List Nat) (c : Nat) (data : List Nat)
    (hc : c < 256) (hlen : 9 + data.length ≤ buf.length) :
    sendFrame buf c data =
      some (buildFrame c data ++ buf.drop (9 + data.length), buildFrame c data)
    ∧ buildFrame c data =
        [0x00, 0x00, 0xFF, (2 + data.length) % 256,
          to_checksum ((2 + data.length) % 256), 0xD4, c]
          ++ data ++ [to_checksum ((0xD4 + c + data.sum) % 256), 0x00]
    ∧ (buildFrame c data).length = 9 + data.length
    ∧ ((2 + data.length) % 256 + to_checksum ((2 + data.length) % 256)) % 256 = 0
    ∧ (0xD4 + c + data.sum
        + to_checksum ((0xD4 + c + data.sum) % 256)) % 256 = 0 := by
  refine ⟨sendFrame_eq buf c data hlen, ?_, ?_, add_to_checksum _, ?_⟩
  · simp [buildFrame, data_sum_eq, HOST_TO_PN532, POSTAMBLE, Nat.mod_eq_of_lt hc]
  · simp [buildFrame]
    omega
  · unfold to_checksum
    omega

/-- Witness for C1 at command 2 with the empty payload on a 32-byte
buffer. -/
theorem C1_send_builds_frame_witness :
    (2 : Nat) < 256
    ∧ 9 + ([] : List Nat).length ≤ (List.replicate 32 (0 : Nat)).length
    ∧ (sendFrame (List.replicate 32 0) 2 [] =
        some (buildFrame 2 [] ++ (List.replicate 32 (0 : Nat)).drop (9 + ([] : List Nat).length),
              buildFrame 2 [])
      ∧ buildFrame 2 [] =
          [0x00, 0x00, 0xFF, (2 + ([] : List Nat).length) % 256,
            to_checksum ((2 + ([] : List Nat).length) % 256), 0xD4, 2]
            ++ [] ++ [to_checksum ((0xD4 + 2 + ([] : List Nat).sum) % 256), 0x00]
      ∧ (buildFrame 2 []).length = 9 + ([] : List Nat).length
      ∧ ((2 + ([] : List Nat).length) % 256
          + to_checksum ((2 + ([] : List Nat).length) % 256)) % 256 = 0
      ∧ (0xD4 + 2 + ([] : List Nat).sum
          + to_checksum ((0xD4 + 2 + ([] : List Nat).sum) % 256)) % 256 = 0) :=
  ⟨by decide, by decide,
    C1_send_builds_frame (List.replicate 32 0) 2 [] (by decide) (by decide)⟩

/-- C3: on every input buffer of length `response_len + 9` and every
expected command byte, the source parser returns exactly the result of the
spec's decision list, the checks applied in the spec's order with the first
failing check deciding the error, and on success the payload slice
`[7, 5 + LEN)`. -/
theorem C3_parse_decision_list (response_len expected : Nat) (buf : List Nat)
    (h : buf.length = response_len + 9) :
    parse_response buf expected = some (parseSpec buf expected) :=
  parse_response_eq buf expected (by omega)

/-- Witness for C3 on the 9-byte error frame `00 00 FF 01 FF 7F 81 00 00`
with `response_len = 0`. -/
theorem C3_parse_decision_list_witness :
    ([0x00, 0x00, 0xFF, 0x01, 0xFF, 0x7F, 0x81, 0x00, 0x00] : List Nat).length = 0 + 9
    ∧ parse_response [0x00, 0x00, 0xFF, 0x01, 0xFF, 0x7F, 0x81, 0x00, 0x00] 3 =
        some (parseSpec [0x00, 0x00, 0xFF, 0x01, 0xFF, 0x7F, 0x81, 0x00, 0x00] 3) :=
  ⟨by decide,
    C3_parse_decision_list 0 3 [0x00, 0x00, 0xFF, 0x01, 0xFF, 0x7F, 0x81, 0x00, 0x00]
      (by decide)⟩

/-- C5: sending GET_FIRMWARE_VERSION (command 0x02, empty payload) emits
exactly `00 00 FF 02 FE D4 02 2A 00`, and receiving the reply
`00 00 FF 06 FA D5 03 32 01 06 07 E8 00` with `response_len = 4` for sent
command 0x02 succeeds with payload `32 01 06 07`. -/
theorem C5_firmware_version_example :
    sendFrame (List.replicate 32 0) Request.GET_FIRMWARE_VERSION.command.toByte
        Request.GET_FIRMWARE_VERSION.data =
      some ([0x00, 0x00, 0xFF, 0x02, 0xFE, 0xD4, 0x02, 0x2A, 0x00]
              ++ List.replicate 23 0,
            [0x00, 0x00, 0xFF, 0x02, 0xFE, 0xD4, 0x02, 0x2A, 0x00])
    ∧ receive_response 32 Request.GET_FIRMWARE_VERSION.command.toByte 4
        [0x00, 0x00, 0xFF, 0x06, 0xFA, 0xD5, 0x03, 0x32, 0x01, 0x06, 0x07, 0xE8, 0x00]
      = some (.ok [0x32, 0x01, 0x06, 0x07]) := by
  constructor
  · decide
  · decide

/-- C6 counterexample: with the IRQ pin not used (`use_irq_pin = false`)
the third payload byte of the SAM-configuration request is 0, not the
claimed 1. -/
theorem C6_sam_configuration_counterexample :
    (Request.sam_configuration SAMMode.normal false).data = [1, 0, 0]
    ∧ (Request.sam_configuration SAMMode.normal false).data ≠ [1, 0, 1] := by
  constructor
  · decide
  · decide

/-- C6 (amended): the SAM-configuration request for Normal mode with the
IRQ pin not used is (0x14, `01 00 00`), and sending it emits exactly
`00 00 FF 05 FB D4 14 01 00 00 17 00`. -/
theorem C6_sam_configuration_amended :
    Request.sam_configuration SAMMode.normal false =
      ⟨Command.samConfiguration, [1, 0, 0]⟩
    ∧ Command.samConfiguration.toByte = 0x14
    ∧ sendFrame (List.replicate 32 0) 0x14 [1, 0, 0] =
        some ([0x00, 0x00, 0xFF, 0x05, 0xFB, 0xD4, 0x14, 0x01, 0x00, 0x00, 0x17, 0x00]
                ++ List.replicate 20 0,
              [0x00, 0x00, 0xFF, 0x05, 0xFB, 0xD4, 0x14, 0x01, 0x00, 0x00, 0x17, 0x00]) := by
  refine ⟨by decide, by decide, by decide⟩

/-- C9: on every input buffer of length at least 9 — the shape
`receive_response` always supplies — and arbitrary byte contents, the
parser performs no out-of-bounds access and returns a value: every access
indexed by the untrusted LEN byte is reached only after the checked lookup
at index `6 + LEN` succeeded. -/
theorem C9_parse_no_out_of_bounds (buf : List Nat) (expected : Nat)
    (h : 9 ≤ buf.length) :
    (parse_response buf expected).isSome := by
  rw [parse_response_eq buf expected (by omega)]
  rfl

/-- Witness for C9 on an all-zero 9-byte buffer. -/
theorem C9_parse_no_out_of_bounds_witness :
    9 ≤ (List.replicate 9 (0 : Nat)).length
    ∧ (parse_response (List.replicate 9 0) 3).isSome :=
  ⟨by decide, C9_parse_no_out_of_bounds (List.replicate 9 0) 3 (by decide)⟩

/-- C10: `_send` computes the LEN byte as `(payload_len + 2) mod 256`
through the u8 cast, so a request whose payload exceeds 253 bytes on a
driver with `N ≥ payload_len + 9` is still framed and handed to the
transport, with a silently wrapped LEN byte and the matching LCS, instead
of being rejected or panicking. -/
theorem C10_len_byte_wraps (buf : List Nat) (c : Nat) (data : List Nat)
    (hlong : 253 < data.length) (hlen : 9 + data.length ≤ buf.length) :
    sendFrame buf c data =
      some (buildFrame c data ++ buf.drop (9 + data.length), buildFrame c data)
    ∧ (buildFrame c data)[3]? = some ((2 + data.length) % 256)
    ∧ (2 + data.length) % 256 ≠ 2 + data.length
    ∧ (buildFrame c data)[4]? = some (to_checksum ((2 + data.length) % 256))
    ∧ ((2 + data.length) % 256 + to_checksum ((2 + data.length) % 256)) % 256 = 0
    ∧ (buildFrame c data).length = 9 + data.length := by
  refine ⟨sendFrame_eq buf c data hlen, ?_, by omega, ?_, add_to_checksum _, ?_⟩
  · simp [buildFrame]
  · simp [buildFrame]
  · simp [buildFrame]
    omega

/-- Witness for C10 with a 254-byte payload on a 263-byte buffer. -/
theorem C10_len_byte_wraps_witness :
    253 < (List.replicate 254 (0 : Nat)).length
    ∧ 9 + (List.replicate 254 (0 : Nat)).length ≤ (List.replicate 263 (0 : Nat)).length
    ∧ (sendFrame (List.replicate 263 0) 0 (List.replicate 254 0) =
        some (buildFrame 0 (List.replicate 254 0)
                ++ (List.replicate 263 (0 : Nat)).drop (9 + (List.replicate 254 (0 : Nat)).length),
              buildFrame 0 (List.replicate 254 0))
      ∧ (buildFrame 0 (List.replicate 254 0))[3]? =
          some ((2 + (List.replicate 254 (0 : Nat)).length) % 256)
      ∧ (2 + (List.replicate 254 (0 : Nat)).length) % 256
          ≠ 2 + (List.replicate 254 (0 : Nat)).length
      ∧ (buildFrame 0 (List.replicate 254 0))[4]? =
          some (to_checksum ((2 + (List.replicate 254 (0 : Nat)).length) % 256))
      ∧ ((2 + (List.replicate 254 (0 : Nat)).length) % 256
          + to_checksum ((2 + (List.replicate 254 (0 : Nat)).length) % 256)) % 256 = 0
      ∧ (buildFrame 0 (List.replicate 254 0)).length
          = 9 + (List.replicate 254 (0 : Nat)).length) :=
  ⟨by rw [List.length_replicate]; omega,
    by rw [List.length_replicate, List.length_replicate],
    C10_len_byte_wraps (List.replicate 263 0) 0 (List.replicate 254 0)
      (by rw [List.length_replicate]; omega)
      (by rw [List.length_replicate, List.length_replicate])⟩

/-- C7 counterexample: a no-acknowledge on the data phase is not treated
as pending by the I2C `wait_ready` — it surfaces as ready(Err). -/
theorem C7_i2c_wait_ready_counterexample :
    I2CInterface.wait_ready (I2cRead.err (I2cErrorKind.noAcknowledge NoAcknowledgeSource.data))
      ≠ I2cPoll.pending
    ∧ I2CInterface.wait_ready (I2cRead.err (I2cErrorKind.noAcknowledge NoAcknowledgeSource.data))
      = I2cPoll.readyErr (I2cErrorKind.noAcknowledge NoAcknowledgeSource.data) := by
  constructor
  · decide
  · decide

/-- C7 (amended): the I2C `wait_ready` returns ready(Ok) iff the byte read
equals 0x01, pending on any other byte, pending on a no-acknowledge error
whose source is the address phase or unknown, and ready(Err) carrying the
link error for a no-acknowledge on the data phase and for every other I2C
failure. -/
theorem C7_i2c_wait_ready_amended (r : I2cRead) :
    I2CInterface.wait_ready r = i2cWaitReadySpec r := by
  rcases r with b | e
  · rfl
  · rcases e with _ | _ | s | _ | _
    · rfl
    · rfl
    · rcases s with _ | _ | _ <;> rfl
    · rfl
    · rfl

/-- C2 counterexample: take the frame `_send` builds for command 2 with an
empty payload and replace only bytes 5 and 6 with `D5` and `03`; the data
checksum is now stale by 2, so the parser reports CrcError instead of
succeeding with the payload. -/
theorem C2_roundtrip_counterexample :
    sendFrame (List.replicate 32 0) 2 [] =
      some ([0x00, 0x00, 0xFF, 0x02, 0xFE, 0xD4, 0x02, 0x2A, 0x00]
              ++ List.replicate 23 0,
            [0x00, 0x00, 0xFF, 0x02, 0xFE, 0xD4, 0x02, 0x2A, 0x00])
    ∧ parse_response
        (([0x00, 0x00, 0xFF, 0x02, 0xFE, 0xD4, 0x02, 0x2A, 0x00].set 5 0xD5).set 6 3) 3
      = some (.err .crcError)
    ∧ parse_response
        (([0x00, 0x00, 0xFF, 0x02, 0xFE, 0xD4, 0x02, 0x2A, 0x00].set 5 0xD5).set 6 3) 3
      ≠ some (.ok []) := by
  refine ⟨by decide, by decide, by decide⟩

/-- Setting the cell right after a seven-byte head and the payload lands on
the first cell of the two-byte tail. -/
lemma set_after7 (a0 a1 a2 a3 a4 a5 a6 vd : Nat) (data tail2 : List Nat) :
    (a0 :: a1 :: a2 :: a3 :: a4 :: a5 :: a6 :: (data ++ tail2)).set
        (7 + data.length) vd
      = a0 :: a1 :: a2 :: a3 :: a4 :: a5 :: a6 :: (data ++ tail2.set 0 vd) := by
  show (([a0, a1, a2, a3, a4, a5, a6] ++ (data ++ tail2)).set (7 + data.length) vd)
    = a0 :: a1 :: a2 :: a3 :: a4 :: a5 :: a6 :: (data ++ tail2.set 0 vd)
  rw [set_append_right_of_le _ _ _ _ (by simp)]
  rw [show 7 + data.length - ([a0, a1, a2, a3, a4, a5, a6] : List Nat).length
      = data.length by simp]
  rw [set_append_right_of_le _ _ _ _ (by omega)]
  rw [Nat.sub_self]
  rfl

/-- C2 (amended): for `D ≤ min(N − 9, 253)`, take the frame built by
`_send`, replace byte 5 with `D5`, byte 6 with `cmd + 1`, and the DCS byte
`7 + D` with the two's complement of `D5 + (cmd + 1) + Σ payload` mod 256;
then `parse_response` with expected command `cmd + 1` succeeds and returns
the original payload. -/
theorem C2_roundtrip_amended (buf : List Nat) (cmd : Nat) (data : List Nat)
    (hc : cmd < 255) (hD : data.length ≤ 253) (hlen : 9 + data.length ≤ buf.length) :
    sendFrame buf cmd data =
      some (buildFrame cmd data ++ buf.drop (9 + data.length), buildFrame cmd data)
    ∧ parse_response
        ((((buildFrame cmd data).set 5 PN532_TO_HOST).set 6 (cmd + 1)).set
          (7 + data.length)
          (to_checksum ((PN532_TO_HOST + (cmd + 1) + data.sum) % 256)))
        (cmd + 1)
      = some (PResult.ok data) := by
  refine ⟨sendFrame_eq buf cmd data hlen, ?_⟩
  set dcs2 := to_checksum ((PN532_TO_HOST + (cmd + 1) + data.sum) % 256) with hdcs2
  have hL : (2 + data.length) % 256 = 2 + data.length := Nat.mod_eq_of_lt (by omega)
  have hmod : (((buildFrame cmd data).set 5 PN532_TO_HOST).set 6 (cmd + 1)).set
      (7 + data.length) dcs2
      = 0x00 :: 0x00 :: 0xFF :: (2 + data.length) :: to_checksum (2 + data.length) ::
          PN532_TO_HOST :: (cmd + 1) :: (data ++ [dcs2, POSTAMBLE]) := by
    simp only [buildFrame, hL, Nat.mod_eq_of_lt (show cmd < 256 by omega)]
    show (((0x00 :: 0x00 :: 0xFF :: (2 + data.length) :: to_checksum (2 + data.length) ::
        HOST_TO_PN532 :: cmd ::
        (data ++ [to_checksum (data_sum cmd data), POSTAMBLE])).set 5 PN532_TO_HOST).set
          6 (cmd + 1)).set (7 + data.length) dcs2
      = 0x00 :: 0x00 :: 0xFF :: (2 + data.length) :: to_checksum (2 + data.length) ::
          PN532_TO_HOST :: (cmd + 1) :: (data ++ [dcs2, POSTAMBLE])
    simp only [List.set]
    rw [set_after7]
    simp [List.set]
  rw [hmod]
  have hWpost : (0x00 :: 0xFF :: (2 + data.length) ::
      to_checksum (2 + data.length) :: PN532_TO_HOST :: (cmd + 1) ::
      (data ++ [dcs2, POSTAMBLE]))[5 + (2 + data.length)]? = some POSTAMBLE := by
    show (([0x00, 0xFF, 2 + data.length, to_checksum (2 + data.length),
        PN532_TO_HOST, cmd + 1] ++ data) ++ [dcs2, POSTAMBLE])[5 + (2 + data.length)]?
      = some POSTAMBLE
    rw [List.getElem?_append_right (by simp; omega)]
    rw [show 5 + (2 + data.length)
        - ([0x00, 0xFF, 2 + data.length, to_checksum (2 + data.length),
            PN532_TO_HOST, cmd + 1] ++ data).length = 1 by simp; omega]
    rfl
  have hWlen : (0x00 :: 0x00 :: 0xFF :: (2 + data.length) ::
      to_checksum (2 + data.length) :: PN532_TO_HOST :: (cmd + 1) ::
      (data ++ [dcs2, POSTAMBLE])).length = 9 + data.length := by
    simp only [List.length_cons, List.length_append, List.length_nil]
    omega
  have hdrop5 : List.drop 5 (0x00 :: 0x00 :: 0xFF :: (2 + data.length) ::
      to_checksum (2 + data.length) :: PN532_TO_HOST :: (cmd + 1) ::
      (data ++ [dcs2, POSTAMBLE]))
      = PN532_TO_HOST :: (cmd + 1) :: (data ++ [dcs2, POSTAMBLE]) := rfl
  have hdrop7 : List.drop 7 (0x00 :: 0x00 :: 0xFF :: (2 + data.length) ::
      to_checksum (2 + data.length) :: PN532_TO_HOST :: (cmd + 1) ::
      (data ++ [dcs2, POSTAMBLE]))
      = data ++ [dcs2, POSTAMBLE] := rfl
  have hslice : List.take (2 + data.length + 1)
      (PN532_TO_HOST :: (cmd + 1) :: (data ++ [dcs2, POSTAMBLE]))
      = ([PN532_TO_HOST, cmd + 1] ++ data) ++ [dcs2] := by
    show List.take (2 + data.length + 1)
        (([PN532_TO_HOST, cmd + 1] ++ data) ++ [dcs2, POSTAMBLE])
      = ([PN532_TO_HOST, cmd + 1] ++ data) ++ [dcs2]
    rw [show 2 + data.length + 1 = ([PN532_TO_HOST, cmd + 1] ++ data).length + 1 by
      simp; omega]
    rw [List.take_append]
    rfl
  have hcs : csum (PN532_TO_HOST :: (cmd + 1) :: (data ++ [dcs2])) = 0 := by
    rw [csum_eq]
    simp only [List.sum_cons, List.sum_append, List.sum_nil, hdcs2]
    unfold to_checksum PN532_TO_HOST
    omega
  have hpay : List.take (5 + (2 + data.length) - 7) (data ++ [dcs2, POSTAMBLE])
      = data := by
    rw [show 5 + (2 + data.length) - 7 = data.length by omega]
    exact List.take_left data _
  simp only [parse_response, List.getElem?_cons_zero, List.getElem?_cons_succ]
  rw [if_neg (by simp)]
  rw [if_neg (by simp [add_to_checksum])]
  rw [if_neg (by omega)]
  rw [if_neg (by omega)]
  simp only [hWpost]
  rw [if_neg (by simp)]
  rw [if_neg (by simp)]
  rw [if_pos (by rw [hWlen]; omega)]
  rw [hdrop5, hslice]
  rw [if_neg (by simp [hcs])]
  rw [if_pos ⟨by omega, by rw [hWlen]; omega⟩]
  rw [hdrop7, hpay]

/-- Witness for C2 (amended) at command 2 with payload `[7]` on a 32-byte
buffer. -/
theorem C2_roundtrip_amended_witness :
    (2 : Nat) < 255
    ∧ ([7] : List Nat).length ≤ 253
    ∧ 9 + ([7] : List Nat).length ≤ (List.replicate 32 (0 : Nat)).length
    ∧ (sendFrame (List.replicate 32 0) 2 [7] =
        some (buildFrame 2 [7] ++ (List.replicate 32 (0 : Nat)).drop (9 + ([7] : List Nat).length),
              buildFrame 2 [7])
      ∧ parse_response
          ((((buildFrame 2 [7]).set 5 PN532_TO_HOST).set 6 (2 + 1)).set
            (7 + ([7] : List Nat).length)
            (to_checksum ((PN532_TO_HOST + (2 + 1) + ([7] : List Nat).sum) % 256)))
          (2 + 1)
        = some (PResult.ok [7])) :=
  ⟨by decide, by decide, by decide,
    C2_roundtrip_amended (List.replicate 32 0) 2 [7] (by decide) (by decide) (by decide)⟩

/-- The frame built by `_send` has exactly `9 + D` bytes. -/
lemma buildFrame_length (cmd : Nat) (data : List Nat) :
    (buildFrame cmd data).length = 9 + data.length := by
  simp [buildFrame]
  omega

/-- A busy-wait loop that sees `k + 1` pending polls while the timer
elapses on the last consult times out. -/
lemma runWait_timeout (k : Nat) :
    runWait (List.replicate (k + 1) PollR.pending) (List.replicate k false ++ [true])
      = some (WaitOut.timeout, [], []) := by
  induction k with
  | zero => rfl
  | succ n ih =>
    rw [List.replicate_succ]
    rw [show List.replicate (n + 1) false ++ [true]
        = false :: (List.replicate n false ++ [true]) by
      rw [List.replicate_succ, List.cons_append]]
    rw [show runWait (PollR.pending :: List.replicate (n + 1) PollR.pending)
        (false :: (List.replicate n false ++ [true]))
        = runWait (List.replicate (n + 1) PollR.pending)
            (List.replicate n false ++ [true]) by
      rw [runWait]
      simp]
    exact ih

/-- C4: if the transport stays pending and the timer elapses before an ACK
was read, `process` returns TimeoutAck having performed only the frame
write and no transport read; if the ACK phase became ready and the 6 ACK
bytes were read, and the transport then stays pending until the timer
elapses, it returns TimeoutResponse having performed exactly one read —
the 6 ACK bytes — and never a response-frame read. -/
theorem C4_timeout_phases (buf : List Nat) (cmd : Nat) (data : List Nat)
    (response_len k : Nat) (ackB respB : List Nat)
    (hlen : 9 + data.length ≤ buf.length) :
    runProcess buf cmd data response_len (List.replicate (k + 1) PollR.pending)
        (List.replicate k false ++ [true]) ackB respB
      = (POut.res (PResult.err PErr.timeoutAck), [Op.write (buildFrame cmd data)])
    ∧ runProcess buf cmd data response_len
        (PollR.readyOk :: List.replicate (k + 1) PollR.pending)
        (List.replicate k false ++ [true]) ACK respB
      = (POut.res (PResult.err PErr.timeoutResponse),
         [Op.write (buildFrame cmd data), Op.read 6]) := by
  constructor
  · simp only [runProcess, sendFrame_eq buf cmd data hlen, runWait_timeout k]
  · simp only [runProcess, sendFrame_eq buf cmd data hlen, runWait,
      runWait_timeout k, ACK]
    simp [List.take]

/-- Witness for C4 with GET_FIRMWARE_VERSION-like arguments and a single
pending poll. -/
theorem C4_timeout_phases_witness :
    9 + ([] : List Nat).length ≤ (List.replicate 32 (0 : Nat)).length
    ∧ (runProcess (List.replicate 32 0) 2 [] 4 (List.replicate (0 + 1) PollR.pending)
          (List.replicate 0 false ++ [true]) ACK []
        = (POut.res (PResult.err PErr.timeoutAck), [Op.write (buildFrame 2 [])])
      ∧ runProcess (List.replicate 32 0) 2 [] 4
          (PollR.readyOk :: List.replicate (0 + 1) PollR.pending)
          (List.replicate 0 false ++ [true]) ACK []
        = (POut.res (PResult.err PErr.timeoutResponse),
           [Op.write (buildFrame 2 []), Op.read 6])) :=
  ⟨by decide, C4_timeout_phases (List.replicate 32 0) 2 [] 4 0 ACK [] (by decide)⟩

/-- A `_send` on a buffer smaller than `9 + D` panics: one of the stores
is out of bounds, and the failure happens before the transport write. -/
lemma sendFrame_none (buf : List Nat) (cmd : Nat) (data : List Nat)
    (h : buf.length < 9 + data.length) :
    sendFrame buf cmd data = none := by
  rw [sendFrame]
  by_cases h0 : 0 < buf.length
  case neg => rw [setByte, if_neg h0]; rfl
  rw [setByte_pos _ _ _ h0]
  simp only [Option.some_bind]
  by_cases h1 : 1 < (buf.set 0 0x00).length
  case neg => rw [setByte, if_neg h1]; rfl
  rw [setByte_pos _ _ _ h1]
  simp only [Option.some_bind]
  by_cases h2 : 2 < ((buf.set 0 0x00).set 1 0x00).length
  case neg => rw [setByte, if_neg h2]; rfl
  rw [setByte_pos _ _ _ h2]
  simp only [Option.some_bind]
  by_cases h3 : 3 < (((buf.set 0 0x00).set 1 0x00).set 2 0xFF).length
  case neg => rw [setByte, if_neg h3]; rfl
  rw [setByte_pos _ _ _ h3]
  simp only [Option.some_bind]
  by_cases h4 : 4 < ((((buf.set 0 0x00).set 1 0x00).set 2 0xFF).set 3
      ((2 + data.length) % 256)).length
  case neg => rw [setByte, if_neg h4]; rfl
  rw [setByte_pos _ _ _ h4]
  simp only [Option.some_bind]
  by_cases h5 : 5 < (((((buf.set 0 0x00).set 1 0x00).set 2 0xFF).set 3
      ((2 + data.length) % 256)).set 4 (to_checksum ((2 + data.length) % 256))).length
  case neg => rw [setByte, if_neg h5]; rfl
  rw [setByte_pos _ _ _ h5]
  simp only [Option.some_bind]
  by_cases h6 : 6 < ((((((buf.set 0 0x00).set 1 0x00).set 2 0xFF).set 3
      ((2 + data.length) % 256)).set 4 (to_checksum ((2 + data.length) % 256))).set 5
      HOST_TO_PN532).length
  case neg => rw [setByte, if_neg h6]; rfl
  rw [setByte_pos _ _ _ h6]
  simp only [Option.some_bind]
  by_cases hsl : 7 + data.length ≤ (((((((buf.set 0 0x00).set 1 0x00).set 2 0xFF).set 3
      ((2 + data.length) % 256)).set 4 (to_checksum ((2 + data.length) % 256))).set 5
      HOST_TO_PN532).set 6 (cmd % 256)).length
  case neg => rw [setSlice, if_neg hsl]; rfl
  rw [setSlice, if_pos hsl]
  simp only [Option.some_bind]
  simp only [List.length_set] at hsl
  by_cases h7 : 7 + data.length < ((((((((buf.set 0 0x00).set 1 0x00).set 2 0xFF).set 3
      ((2 + data.length) % 256)).set 4 (to_checksum ((2 + data.length) % 256))).set 5
      HOST_TO_PN532).set 6 (cmd % 256)).take 7 ++ data
        ++ (((((((buf.set 0 0x00).set 1 0x00).set 2 0xFF).set 3
          ((2 + data.length) % 256)).set 4 (to_checksum ((2 + data.length) % 256))).set 5
          HOST_TO_PN532).set 6 (cmd % 256)).drop (7 + data.length)).length
  case neg => rw [setByte, if_neg h7]; rfl
  rw [setByte_pos _ _ _ h7]
  simp only [Option.some_bind]
  rw [setByte, if_neg (by
    simp only [List.length_set, List.length_append, List.length_take,
      List.length_drop]
    omega)]
  rfl

/-- C8 counterexample: a process call whose `response_len` exceeds `N − 9`
while the payload fits performs the request write and the 6-byte ACK read
before panicking, so the panic does not come before all transport I/O. -/
theorem C8_panic_counterexample :
    runProcess (List.replicate 9 0) 2 [] 1 [PollR.readyOk, PollR.readyOk] [] ACK []
      = (POut.panicked,
         [Op.write [0x00, 0x00, 0xFF, 0x02, 0xFE, 0xD4, 0x02, 0x2A, 0x00], Op.read 6])
    ∧ (runProcess (List.replicate 9 0) 2 [] 1 [PollR.readyOk, PollR.readyOk] [] ACK []).2
      ≠ [] := by
  refine ⟨by decide, by decide⟩

/-- C8 (amended): a send whose payload exceeds `N − 9` panics with no
transport I/O at all, and so does a process call built on it; a
receive_response whose `response_len` exceeds `N − 9` panics before its
transport read; a process call in which only `response_len` violates the
invariant panics at the response phase — after the request write and the
6-byte ACK read, but before any response-frame read. -/
theorem C8_buffer_invariant_panics (buf : List Nat) (cmd : Nat) (data : List Nat)
    (response_len : Nat) (polls : List PollR) (timer : List Bool)
    (ackB respB : List Nat) :
    (buf.length < 9 + data.length →
      sendFrame buf cmd data = none
      ∧ runProcess buf cmd data response_len polls timer ackB respB
          = (POut.panicked, []))
    ∧ (buf.length < response_len + 9 →
        receive_response buf.length cmd response_len respB = none)
    ∧ (9 + data.length ≤ buf.length → buf.length < response_len + 9 →
        runProcess buf cmd data response_len
          (PollR.readyOk :: PollR.readyOk :: polls) timer ACK respB
          = (POut.panicked, [Op.write (buildFrame cmd data), Op.read 6])) := by
  refine ⟨fun h => ⟨sendFrame_none buf cmd data h, ?_⟩, fun h => ?_, fun h1 h2 => ?_⟩
  · simp only [runProcess, sendFrame_none buf cmd data h]
  · rw [receive_response, if_neg (by omega)]
  · simp only [runProcess, sendFrame_eq buf cmd data h1, runWait, ACK]
    rw [if_neg (by simp [List.take])]
    rw [if_neg (by
      simp only [List.length_append, buildFrame_length, List.length_drop]
      omega)]

/-- Witness for C8 (amended), exercising all three conjuncts: the first
two on an empty buffer, the third on a 9-byte buffer with
`response_len = 1`. -/
theorem C8_buffer_invariant_panics_witness :
    (sendFrame [] 2 [] = none
      ∧ runProcess [] 2 [] 1 [] [] [] [] = (POut.panicked, []))
    ∧ receive_response ([] : List Nat).length 2 1 [] = none
    ∧ runProcess (List.replicate 9 0) 2 [] 1
        (PollR.readyOk :: PollR.readyOk :: []) [] ACK []
        = (POut.panicked, [Op.write (buildFrame 2 []), Op.read 6]) := by
  refine ⟨?_, ?_, ?_⟩
  · exact (C8_buffer_invariant_panics [] 2 [] 1 [] [] [] []).1 (by decide)
  · exact (C8_buffer_invariant_panics [] 2 [] 1 [] [] [] []).2.1 (by decide)
  · exact (C8_buffer_invariant_panics (List.replicate 9 0) 2 [] 1 [] [] [] []).2.2
      (by decide) (by decide)
